import Mathlib

/-
Verification development for the ERMES QGIS mapping plugin core
(workers/token_manager.py, workers/main.py, workers/job_download_task.py,
workers/file_upload_task.py).

The Python sources are shallowly embedded as pure Lean functions.  Wall-clock
times are integers in minutes (the unit used by the configuration); network
interactions are supplied as explicit environment values; Qt signal emissions,
progress updates and filesystem operations are recorded in an ordered trace of
actions.  Python truthiness of optional strings (None or the empty string are
falsy) is modelled explicitly.
-/

namespace Ermes

/-! ## Python string helpers

Character-list implementations of the string operations the sources use, kept
structurally recursive so that concrete runs reduce inside the kernel. -/

/-- Does the character list start with the given pattern? -/
def startsWithL : List Char → List Char → Bool
  | _, [] => true
  | [], _ :: _ => false
  | a :: as, b :: bs => a == b && startsWithL as bs

/-- Suffix of the list after the last occurrence of the (nonempty) pattern,
or none when the pattern does not occur.  This is the list-level content of
Python `s.split(pat)[-1]` when `pat in s`. -/
def afterLastOcc (pat : List Char) : List Char → Option (List Char)
  | [] => none
  | c :: cs =>
    match afterLastOcc pat cs with
    | some r => some r
    | none => if startsWithL (c :: cs) pat then some (List.drop pat.length (c :: cs)) else none

/-- Python `str.strip(chars)`: drop leading and trailing characters that belong
to the given set. -/
def stripSet (cs : List Char) (l : List Char) : List Char :=
  ((l.dropWhile fun a => cs.contains a).reverse.dropWhile fun a => cs.contains a).reverse

/-- Python truthiness of an optional string: None and the empty string are falsy. -/
def pyTruthyOpt : Option String → Bool
  | some s => decide (s ≠ "")
  | none => false

/-- Python `a or b` for an optional string `a` and a default `b`. -/
def pyOr : Option String → String → String
  | some s, d => if s = "" then d else s
  | none, d => d

/-- Python `pat in hay` on strings (for a nonempty pattern). -/
def containsSub (hay pat : String) : Bool :=
  (afterLastOcc pat.toList hay.toList).isSome

/-- Python `os.path.basename` for POSIX paths. -/
def pyBasename (p : String) : String :=
  match afterLastOcc ['/'] p.toList with
  | some l => String.mk l
  | none => p

/-- Filename resolution shared by both download paths: parse the
`Content-Disposition` header (split on the filename marker, take the last part,
strip quote, semicolon and space characters), falling
back to `"<job_id>.zip"` when the header yields nothing. -/
def parseFilename (contentDisp : String) (jobId : Int) : String :=
  let cand :=
    match afterLastOcc ("filename=".toList) contentDisp.toList with
    | some l => String.mk (stripSet ['"', ';', ' '] l)
    | none => ""
  if cand = "" then toString jobId ++ ".zip" else cand

/-- Python `f"{bytes / (1024*1024):.1f}"` rendered with one decimal digit.
Computed exactly (floor to one decimal) rather than through binary floating
point; no claim inspects these digits. -/
def fmtMB (bytes : Nat) : String :=
  toString (bytes * 10 / (1024 * 1024) / 10) ++ "." ++ toString (bytes * 10 / (1024 * 1024) % 10)

/-! ## TokenManager (workers/token_manager.py)

State of a `TokenManager` instance.  Times are integers in minutes; `none`
models Python `None`. -/

structure TokenManager where
  access_token : Option String
  token_created_at : Option Int
  token_lifetime_minutes : Int
  expiration_buffer_minutes : Int

/-- State after `TokenManager.__init__` (no token yet; lifetime and buffer come
from the configuration). -/
def initTM (lifetime buffer : Int) : TokenManager :=
  { access_token := none, token_created_at := none,
    token_lifetime_minutes := lifetime, expiration_buffer_minutes := buffer }

/-- Model of `TokenManager.set_token`: store the token, record `datetime.now()` as the
creation time, and replace the configured lifetime only when
`lifetime_minutes` is not None. -/
def set_token (s : TokenManager) (tok : String) (lifetime_minutes : Option Int) (now : Int) :
    TokenManager :=
  let s1 := { s with access_token := some tok, token_created_at := some now }
  match lifetime_minutes with
  | some lm => { s1 with token_lifetime_minutes := lm }
  | none => s1

/-- Model of `TokenManager.clear_token`: reset both the token and its creation time. -/
def clear_token (s : TokenManager) : TokenManager :=
  { s with access_token := none, token_created_at := none }

/-- Model of `TokenManager.is_token_expired`: true when no (truthy) token or creation
time is stored, else when `now - created >= lifetime - buffer`. -/
def is_token_expired (s : TokenManager) (now : Int) : Bool :=
  match s.access_token, s.token_created_at with
  | some tok, some created =>
    if tok = "" then true
    else decide (now - created ≥ s.token_lifetime_minutes - s.expiration_buffer_minutes)
  | _, _ => true

/-- Model of `TokenManager.is_token_valid`. -/
def is_token_valid (s : TokenManager) (now : Int) : Bool :=
  !(is_token_expired s now)

/-- Model of `TokenManager.get_time_until_expiry`: `max(lifetime - age, 0)`, and 0 when
no creation time is stored. -/
def get_time_until_expiry (s : TokenManager) (now : Int) : Int :=
  match s.token_created_at with
  | none => 0
  | some created => max (s.token_lifetime_minutes - (now - created)) 0

/-- Model of `TokenManager.validate_token_with_api`.  The environment value `resp` is
the outcome of the authenticated test request: `Except.error ()` for any raised
exception (network failure), `Except.ok code` for a response with that HTTP
status code.  Returns False with no token, False on 401, True on 200, and True
for every other status or exception (fail-open). -/
def validate_token_with_api (s : TokenManager) (resp : Except Unit Nat) : Bool :=
  if !(pyTruthyOpt s.access_token) then false
  else
    match resp with
    | Except.error _ => true
    | Except.ok code => if code = 401 then false else if code = 200 then true else true

/-- Whether `validate_token_with_api` issues an HTTP request at all: it returns
early, before the `requests.get`, when no truthy token is stored. -/
def validate_makes_request (s : TokenManager) : Bool :=
  pyTruthyOpt s.access_token

/-- Model of `TokenManager.check_and_handle_expiration`: local expiry check first, then
the remote validation; true exactly when both checks pass.  (The
`token_expired` signal emissions accompany the false results and are not
modelled separately.) -/
def check_and_handle_expiration (s : TokenManager) (now : Int) (resp : Except Unit Nat) : Bool :=
  if is_token_expired s now then false
  else if !(validate_token_with_api s resp) then false
  else true

/-- A single mutation of a TokenManager: `set_token` or `clear_token`. -/
inductive TokOp
  | set (tok : String) (lifetime_minutes : Option Int) (now : Int)
  | clear

/-- Apply one mutation. -/
def applyTokOp (s : TokenManager) : TokOp → TokenManager
  | TokOp.set tok lm now => set_token s tok lm now
  | TokOp.clear => clear_token s

/-! ## MainWorker (workers/main.py)

The polling loop is driven by a list of per-iteration environment values: the
parsed response of `_get_job_status` (or the transport error it raised) and,
for the branch that downloads, the outcome of the retrieve request.  The loop
observable behaviour of the loop body (signal emissions and sleeps) is recorded as a list
of events.  Exhausting the input list models `stop()` ending the loop. -/

/-- Configuration and construction arguments of a `MainWorker`. -/
structure MwCfg where
  jobId : Int
  pollingInterval : Int
  errorSleep : Int
  tmpRoot : String
  cacheDirName : String

/-- Body of the retrieve response used by `MainWorker._download_resource`. -/
structure MwDlResp where
  contentDisp : String
  chunks : List Nat

/-- Outcome of one `_get_job_status` call: the parsed JSON fields, or the
message of the `requests` exception it raised. -/
inductive MwPoll
  | ok (status : String) (statusCode : Int) (result : String)
      (resourceUrl : Option String) (datatypeId : Option String)
  | netErr (msg : String)

/-- Environment for one iteration of the polling loop. -/
structure MwIter where
  poll : MwPoll
  dl : Except String MwDlResp

/-- Observable events of a `MainWorker`: its Qt signals plus sleeps. -/
inductive MwEv
  | statusUpdated (m : String)
  | logSeparator
  | errorEv (m : String)
  | layerReady (path : String) (dt : Option String)
  | finishedSig
  | sleepFor (secs : Int)

/-- Cache path built by `_download_resource`:
`os.path.join(tempfile.gettempdir(), cache_dir_name, str(job_id), filename)`. -/
def mwCachePath (cfg : MwCfg) (r : MwDlResp) : String :=
  cfg.tmpRoot ++ "/" ++ cfg.cacheDirName ++ "/" ++ toString cfg.jobId ++ "/" ++
    parseFilename r.contentDisp cfg.jobId

/-- One iteration of the `MainWorker.run` loop body: the events it emits and
whether the loop continues (`false` models `break`). -/
def mwStep (cfg : MwCfg) (it : MwIter) : List MwEv × Bool :=
  match it.poll with
  | MwPoll.netErr e => ([MwEv.errorEv ("API request error: " ++ e), MwEv.logSeparator], false)
  | MwPoll.ok status code res ru dt =>
    let jid := toString cfg.jobId
    if status = "end" then
      if pyTruthyOpt ru then
        let pre := [MwEv.statusUpdated
          ("Job " ++ jid ++ " status: success - Request completed, downloading layer")]
        match it.dl with
        | Except.ok r => (pre ++ [MwEv.layerReady (mwCachePath cfg r) dt], false)
        | Except.error e =>
          (pre ++ [MwEv.errorEv ("API request error: " ++ e), MwEv.logSeparator], false)
      else ([MwEv.errorEv "Job completed but no resource URL provided"], false)
    else if status = "error" then
      if code = 404 then
        ([MwEv.statusUpdated ("Job " ++ jid ++ " Warning: " ++ res),
          MwEv.sleepFor cfg.errorSleep], true)
      else
        ([MwEv.errorEv ("Job " ++ jid ++ " Error: " ++ toString code ++ " - " ++ res),
          MwEv.logSeparator], false)
    else if status = "pending" ∨ status = "start" ∨ status = "update" then
      ([MwEv.statusUpdated ("Job " ++ jid ++ " status: " ++ status ++ " - " ++ res ++ " "),
        MwEv.sleepFor cfg.pollingInterval], true)
    else
      ([MwEv.errorEv ("Job " ++ jid ++ " Unknown job status: " ++ status),
        MwEv.logSeparator], false)

/-- The polling loop over the supplied iteration environments. -/
def mwGo (cfg : MwCfg) : List MwIter → List MwEv
  | [] => []
  | it :: rest =>
    (mwStep cfg it).1 ++ (if (mwStep cfg it).2 then mwGo cfg rest else [])

/-- Model of `MainWorker.run`: the startup status message, the loop, and the `finished`
signal from the `finally` block. -/
def mwRun (cfg : MwCfg) (iters : List MwIter) : List MwEv :=
  MwEv.statusUpdated ("Worker: Starting to monitor job " ++ toString cfg.jobId) ::
    (mwGo cfg iters ++ [MwEv.finishedSig])

/-- Recognise a `layer_ready` emission. -/
def mwIsLayer : MwEv → Bool
  | MwEv.layerReady _ _ => true
  | _ => false

/-- Recognise an `error` emission. -/
def mwIsError : MwEv → Bool
  | MwEv.errorEv _ => true
  | _ => false

/-- Recognise a non-terminal progress status (the `pending | start | update`
branch of the loop). -/
def mwProgressStatus (it : MwIter) : Bool :=
  match it.poll with
  | MwPoll.ok s _ _ _ _ => s == "pending" || s == "start" || s == "update"
  | _ => false

/-! ## JobDownloadTask (workers/job_download_task.py)

A `QgsTask` lifecycle: the framework executes `run()` on a background thread
and afterwards always invokes `finished(result)` on the main thread; an
external cancellation request invokes `cancel()` (which emits immediately) and
makes subsequent `isCanceled()` calls return true.  `run` performs the checks
`isCanceled()` in a fixed order: check 0 before authentication, check 1 after
the job-detail fetch, then one check per streamed chunk (checks 2, 3, ...).
The environment fixes the index of the first check that observes the request;
the `cancel()` emission is interleaved immediately before that observing check
(in every real schedule it happens between the previous check and the
observing one, so it always precedes the cleanup that follows observation). -/

/-- Trace actions of a `JobDownloadTask`: signal emissions, progress updates,
outbound HTTP requests, and filesystem operations. -/
inductive DlAct
  | setProgress (p : Nat)
  | statusUpdate (msg level : String)
  | netGet (what : String)
  | writeChunk (n : Nat)
  | removeFile (path : String)
  | removeDir (path : String)
  | downloadCompleted (path : String) (dt : Option String)
  | downloadFailed (msg : String)

/-- Construction arguments of a `JobDownloadTask` (the token manager is
initialised with `set_token(access_token)` at construction time `t0`). -/
structure DlCfg where
  jobId : Int
  accessToken : String
  tmLifetime : Int
  tmBuffer : Int
  t0 : Int
  chunkSize : Nat

/-- Body of a successful retrieve response. -/
structure DlResp where
  contentLength : Option Nat
  contentDisp : String
  chunks : List Nat

/-- Environment of one `run()` execution. -/
structure DlEnv where
  cancelAt : Option Nat
  now : Int
  validateResp : Except Unit Nat
  jobDetail : Except String (Option String)
  retrieve : Except String DlResp
  tempDir : String

/-- Result of `run()` together with the instance fields it leaves behind. -/
structure DlOut where
  trace : List DlAct
  result : Bool
  result_path : Option String
  datatype_id : Option String
  error_message : Option String
  canceled : Bool

/-- Whether the `isCanceled()` call with the given index observes the request. -/
def isCanceledAt (cancelAt : Option Nat) (i : Nat) : Bool :=
  match cancelAt with
  | none => false
  | some n => decide (n ≤ i)

/-- Token manager held by the download task after its constructor ran. -/
def dlTM (cfg : DlCfg) : TokenManager :=
  set_token (initTM cfg.tmLifetime cfg.tmBuffer) cfg.accessToken none cfg.t0

/-- HTTP requests issued by `_authenticate` (via
`check_and_handle_expiration`): the validation request is sent exactly when the
token is locally unexpired and truthy. -/
def dlAuthTrace (s : TokenManager) (now : Int) : List DlAct :=
  if !(is_token_expired s now) && validate_makes_request s then [DlAct.netGet "validate"]
  else []

/-- The streaming loop of `run()`.  Arguments: cancellation environment, the
parsed `Content-Length` (0 when absent), the paths created for this download,
the index of the next `isCanceled()` check, bytes downloaded so far, and the
remaining chunks.  Returns the trace, the final byte count, and whether a
check observed the cancellation (in which case the partial file and the
temporary directory were removed before returning). -/
def dlLoop (cancelAt : Option Nat) (total : Nat) (cachePath tempDir : String) :
    Nat → Nat → List Nat → List DlAct × Nat × Bool
  | _, d, [] => ([], d, false)
  | i, d, c :: cs =>
    if isCanceledAt cancelAt i then
      ([DlAct.downloadFailed "Download cancelled", DlAct.removeFile cachePath,
        DlAct.removeDir tempDir], d, true)
    else if c = 0 then dlLoop cancelAt total cachePath tempDir (i + 1) d cs
    else
      let d2 := d + c
      let rest := dlLoop cancelAt total cachePath tempDir (i + 1) d2 cs
      (DlAct.writeChunk c ::
        ((if 0 < total then [DlAct.setProgress (max 20 (min 95 (d2 * 100 / total)))] else []) ++
          rest.1), rest.2.1, rest.2.2)

/-- Model of `JobDownloadTask.run`. -/
def dlRun (cfg : DlCfg) (env : DlEnv) : DlOut :=
  let jid := toString cfg.jobId
  let tr0 := [DlAct.setProgress 1,
    DlAct.statusUpdate ("Preparing to download job " ++ jid ++ "...") "info"]
  if isCanceledAt env.cancelAt 0 then
    { trace := tr0 ++ [DlAct.downloadFailed "Download cancelled"], result := false,
      result_path := none, datatype_id := none, error_message := none, canceled := true }
  else
    let tm := dlTM cfg
    let tr1 := tr0 ++ [DlAct.setProgress 5] ++ dlAuthTrace tm env.now
    if check_and_handle_expiration tm env.now env.validateResp then
      let tr2 := tr1 ++ [DlAct.setProgress 10,
        DlAct.statusUpdate ("Fetching job details for " ++ jid ++ "...") "info",
        DlAct.netGet "jobDetail"]
      match env.jobDetail with
      | Except.error e =>
        { trace := tr2 ++ [DlAct.statusUpdate ("Network error: " ++ e) "error",
            DlAct.downloadFailed ("Network error during download: " ++ e)],
          result := false, result_path := none, datatype_id := none,
          error_message := some ("Network error during download: " ++ e), canceled := false }
      | Except.ok dt =>
        if isCanceledAt env.cancelAt 1 then
          { trace := tr2 ++ [DlAct.downloadFailed "Download cancelled"], result := false,
            result_path := none, datatype_id := dt, error_message := none, canceled := true }
        else
          let tr3 := tr2 ++ [DlAct.setProgress 15,
            DlAct.statusUpdate ("Starting download for job " ++ jid ++ "...") "info",
            DlAct.netGet "retrieve"]
          match env.retrieve with
          | Except.error e =>
            { trace := tr3 ++ [DlAct.statusUpdate ("Network error: " ++ e) "error",
                DlAct.downloadFailed ("Network error during download: " ++ e)],
              result := false, result_path := none, datatype_id := dt,
              error_message := some ("Network error during download: " ++ e), canceled := false }
          | Except.ok r =>
            let total := r.contentLength.getD 0
            let filename := parseFilename r.contentDisp cfg.jobId
            let cachePath := env.tempDir ++ "/" ++ filename
            let lp := dlLoop env.cancelAt total cachePath env.tempDir 2 0 r.chunks
            if lp.2.2 then
              { trace := tr3 ++ lp.1, result := false, result_path := some cachePath,
                datatype_id := dt, error_message := none, canceled := true }
            else
              { trace := tr3 ++ lp.1 ++ [DlAct.setProgress 100,
                  DlAct.statusUpdate ("Download completed for job " ++ jid ++ "!") "success",
                  DlAct.downloadCompleted cachePath dt],
                result := true, result_path := some cachePath, datatype_id := dt,
                error_message := none, canceled := false }
    else
      { trace := tr1, result := false, result_path := none, datatype_id := none,
        error_message := some "Authentication token has expired. Please login again.",
        canceled := false }

/-- Model of `JobDownloadTask.finished(result)`, always invoked by the framework after
`run` returns. -/
def dlFinished (o : DlOut) : List DlAct :=
  if o.result && pyTruthyOpt o.result_path then
    [DlAct.downloadCompleted (o.result_path.getD "") o.datatype_id]
  else
    [DlAct.downloadFailed (pyOr o.error_message "Download failed")]

/-- Full observable lifecycle of one `JobDownloadTask`: the `run` trace (with
the `cancel()` emission interleaved at the observing check), then `finished`;
when a cancellation was requested but never observed by a check, the `cancel()`
emission lands after the task already completed. -/
def dlLifecycle (cfg : DlCfg) (env : DlEnv) : List DlAct :=
  let o := dlRun cfg env
  o.trace ++ dlFinished o ++
    (if env.cancelAt.isSome && !o.canceled then [DlAct.downloadFailed "Download cancelled"]
     else [])

/-- Recognise a `download_completed` emission. -/
def isDlCompleted : DlAct → Bool
  | DlAct.downloadCompleted _ _ => true
  | _ => false

/-- Recognise a `download_failed` emission. -/
def isDlFailed : DlAct → Bool
  | DlAct.downloadFailed _ => true
  | _ => false

/-- Recognise the `download_failed` emission of `cancel()`. -/
def isCancelledFail : DlAct → Bool
  | DlAct.downloadFailed m => decide (m = "Download cancelled")
  | _ => false

/-- Recognise a file removal. -/
def isRemoveFileAct : DlAct → Bool
  | DlAct.removeFile _ => true
  | _ => false

/-- Recognise the chunk-loop bookkeeping actions (writes and progress). -/
def isChunkAct : DlAct → Bool
  | DlAct.writeChunk _ => true
  | DlAct.setProgress _ => true
  | _ => false

/-- The numeric progress values of a trace, in order. -/
def progressEvents : List DlAct → List Nat
  | [] => []
  | DlAct.setProgress p :: tr => p :: progressEvents tr
  | DlAct.statusUpdate _ _ :: tr => progressEvents tr
  | DlAct.netGet _ :: tr => progressEvents tr
  | DlAct.writeChunk _ :: tr => progressEvents tr
  | DlAct.removeFile _ :: tr => progressEvents tr
  | DlAct.removeDir _ :: tr => progressEvents tr
  | DlAct.downloadCompleted _ _ :: tr => progressEvents tr
  | DlAct.downloadFailed _ :: tr => progressEvents tr

/-- Transcribed from the claim text (C8): per nonempty chunk, the value
`int(transferredBytes / totalBytes * 100)` clamped to the band `[20, 95]`,
where `transferredBytes` accumulates the chunk sizes. -/
def claimedChunkProgress (total : Nat) : Nat → List Nat → List Nat
  | _, [] => []
  | d, c :: cs =>
    if c = 0 then claimedChunkProgress total d cs
    else min 95 (max 20 ((d + c) * 100 / total)) :: claimedChunkProgress total (d + c) cs

/-! ## FileUploadTask (workers/file_upload_task.py)

Same QgsTask lifecycle as the download task.  `run` performs `isCanceled()`
checks in order: check 0 after the preparation message, check 1 after
authentication, check 2 after the upload response returned. -/

/-- Trace actions of a `FileUploadTask`. -/
inductive UpAct
  | setProgress (p : Nat)
  | statusUpdate (msg level : String)
  | netGet
  | netPost
  | uploadCompleted (path dt : String)
  | uploadFailed (msg : String)

/-- Construction arguments of a `FileUploadTask` (token manager initialised
with `set_token(access_token)` at construction time `t0`). -/
structure UpCfg where
  filePath : String
  datatypeId : String
  imageType : String
  accessToken : String
  tmLifetime : Int
  tmBuffer : Int
  t0 : Int

/-- Outcome of the upload POST: a timeout, another `requests` exception (also
covering non-2xx responses via `raise_for_status`), or a response with its
content type, optional JSON `detail` field, and raw body text. -/
inductive UpPost
  | timeout
  | netErr (msg : String)
  | ok (contentType : String) (detail : Option String) (bodyText : String)

/-- Environment of one upload `run()` execution. -/
structure UpEnv where
  cancelAt : Option Nat
  now : Int
  validateResp : Except Unit Nat
  fileSize : Nat
  postResult : UpPost
  tempTiffPath : String

/-- Result of upload `run()` with the fields it leaves behind. -/
structure UpOut where
  trace : List UpAct
  result : Bool
  result_path : Option String
  error_message : Option String
  canceled : Bool

/-- Token manager held by the upload task after its constructor ran. -/
def upTM (cfg : UpCfg) : TokenManager :=
  set_token (initTM cfg.tmLifetime cfg.tmBuffer) cfg.accessToken none cfg.t0

/-- HTTP requests issued by `_authenticate` of the upload task. -/
def upAuthTrace (s : TokenManager) (now : Int) : List UpAct :=
  if !(is_token_expired s now) && validate_makes_request s then [UpAct.netGet] else []

/-- Error message of the 1 GiB size ceiling. -/
def tooLargeMsg (bytes : Nat) : String :=
  "File too large: " ++ fmtMB bytes ++ " MB. Maximum allowed size is 1 GB (1024 MB)."

/-- Model of `FileUploadTask.run`. -/
def upRun (cfg : UpCfg) (env : UpEnv) : UpOut :=
  let filename := pyBasename cfg.filePath
  let tr0 := [UpAct.setProgress 5,
    UpAct.statusUpdate ("Preparing to upload " ++ filename ++ "...") "info"]
  if isCanceledAt env.cancelAt 0 then
    { trace := tr0 ++ [UpAct.uploadFailed "Inference cancelled"], result := false,
      result_path := none, error_message := none, canceled := true }
  else
    let tm := upTM cfg
    let tr1 := tr0 ++ [UpAct.setProgress 10] ++ upAuthTrace tm env.now
    if check_and_handle_expiration tm env.now env.validateResp then
      let tr2 := tr1 ++ [UpAct.setProgress 15,
        UpAct.statusUpdate ("Uploading " ++ filename ++ " to server...") "info"]
      if isCanceledAt env.cancelAt 1 then
        { trace := tr2 ++ [UpAct.uploadFailed "Inference cancelled"], result := false,
          result_path := none, error_message := none, canceled := true }
      else
        let tr3 := tr2 ++
          [UpAct.statusUpdate ("File size: " ++ fmtMB env.fileSize ++ " MB") "info"]
        if env.fileSize > 1024 * 1024 * 1024 then
          { trace := tr3 ++ [UpAct.statusUpdate (tooLargeMsg env.fileSize) "error",
              UpAct.uploadFailed (tooLargeMsg env.fileSize)],
            result := false, result_path := none,
            error_message := some (tooLargeMsg env.fileSize), canceled := false }
        else
          let tr4 := tr3 ++ [UpAct.setProgress 20,
            UpAct.statusUpdate
              "Upload and inference in progress (this may take several minutes)..." "info",
            UpAct.netPost]
          match env.postResult with
          | UpPost.timeout =>
            { trace := tr4 ++ [UpAct.statusUpdate "Upload timeout - please try again" "error"],
              result := false, result_path := none,
              error_message := some "Upload timeout - the file may be too large or server is slow",
              canceled := false }
          | UpPost.netErr e =>
            { trace := tr4 ++ [UpAct.statusUpdate ("Network error: " ++ e) "error",
                UpAct.uploadFailed ("Network error during inference: " ++ e)],
              result := false, result_path := none,
              error_message := some ("Network error during inference: " ++ e),
              canceled := false }
          | UpPost.ok ct detail bodyText =>
            let tr5 := tr4 ++ [UpAct.setProgress 70,
              UpAct.statusUpdate "Inference completed, processing response..." "info"]
            if isCanceledAt env.cancelAt 2 then
              { trace := tr5 ++ [UpAct.uploadFailed "Inference cancelled"], result := false,
                result_path := none, error_message := none, canceled := true }
            else if containsSub ct "image/tiff" || containsSub ct "image/tif" then
              { trace := tr5 ++ [UpAct.setProgress 85,
                  UpAct.statusUpdate "Saving result TIFF file..." "info",
                  UpAct.setProgress 100,
                  UpAct.statusUpdate "Inference completed successfully!" "success",
                  UpAct.uploadCompleted env.tempTiffPath cfg.datatypeId],
                result := true, result_path := some env.tempTiffPath,
                error_message := none, canceled := false }
            else
              let emsg := detail.getD bodyText
              { trace := tr5 ++ [UpAct.statusUpdate ("Error: " ++ emsg) "error",
                  UpAct.uploadFailed ("API returned error: " ++ emsg)],
                result := false, result_path := none,
                error_message := some ("API returned error: " ++ emsg), canceled := false }
    else
      { trace := tr1, result := false, result_path := none,
        error_message := some "Authentication token has expired. Please login again.",
        canceled := false }

/-- Model of `FileUploadTask.finished(result)`, always invoked after `run` returns. -/
def upFinished (o : UpOut) (dt : String) : List UpAct :=
  if o.result && pyTruthyOpt o.result_path then
    [UpAct.uploadCompleted (o.result_path.getD "") dt]
  else
    [UpAct.uploadFailed (pyOr o.error_message "Inference failed")]

/-- Full observable lifecycle of one `FileUploadTask` (same interleaving
conventions as `dlLifecycle`). -/
def upLifecycle (cfg : UpCfg) (env : UpEnv) : List UpAct :=
  let o := upRun cfg env
  o.trace ++ upFinished o cfg.datatypeId ++
    (if env.cancelAt.isSome && !o.canceled then [UpAct.uploadFailed "Inference cancelled"]
     else [])

/-- Recognise any outbound HTTP request of the upload task. -/
def isUpNet : UpAct → Bool
  | UpAct.netGet => true
  | UpAct.netPost => true
  | _ => false

/-- Recognise the upload POST request. -/
def isUpPost : UpAct → Bool
  | UpAct.netPost => true
  | _ => false

/-- Recognise an `upload_completed` emission. -/
def isUpCompleted : UpAct → Bool
  | UpAct.uploadCompleted _ _ => true
  | _ => false

/-- Recognise an `upload_failed` emission carrying the given message. -/
def isUpFailedMsg (m : String) : UpAct → Bool
  | UpAct.uploadFailed m2 => decide (m2 = m)
  | _ => false

/-! ## Concrete instances used by counterexamples and witnesses -/

/-- A token manager with the default configured durations (lifetime 6000
minutes, buffer 5 minutes). -/
def tmDefault : TokenManager := initTM 6000 5

/-- A download task constructed at time 0 with the default durations. -/
def dlCfgEx : DlCfg :=
  { jobId := 7, accessToken := "tok", tmLifetime := 6000, tmBuffer := 5, t0 := 0,
    chunkSize := 8192 }

/-- A retrieve response with a known length whose two chunks sum to it. -/
def dlRespEx : DlResp := { contentLength := some 100, contentDisp := "", chunks := [60, 40] }

/-- A retrieve response used for the cancellation scenarios. -/
def dlRespCancelEx : DlResp := { contentLength := some 100, contentDisp := "", chunks := [50, 50] }

/-- Environment of a fully successful download (valid token, job detail and
retrieve both succeed, no cancellation). -/
def dlEnvSuccess : DlEnv :=
  { cancelAt := none, now := 0, validateResp := Except.ok 200,
    jobDetail := Except.ok (some "dt1"), retrieve := Except.ok dlRespEx,
    tempDir := "/tmp/dl7" }

/-- Environment of a download cancelled mid-stream: the request is observed by
check 3, i.e. at the chunk boundary after the first chunk was written. -/
def dlEnvCancel : DlEnv :=
  { cancelAt := some 3, now := 0, validateResp := Except.ok 200,
    jobDetail := Except.ok (some "dt1"), retrieve := Except.ok dlRespCancelEx,
    tempDir := "/tmp/dl7" }

/-- An upload task constructed at time 0 with the default durations. -/
def upCfgEx : UpCfg :=
  { filePath := "/data/img.tif", datatypeId := "dt9", imageType := "optical",
    accessToken := "tok", tmLifetime := 6000, tmBuffer := 5, t0 := 0 }

/-- Environment of an upload whose file is reported as 1025 MiB: the token is
fresh, so the validation request is issued, and no cancellation occurs. -/
def upEnvLarge : UpEnv :=
  { cancelAt := none, now := 0, validateResp := Except.ok 200,
    fileSize := 1025 * 1024 * 1024, postResult := UpPost.ok "image/tiff" none "",
    tempTiffPath := "/tmp/out.tif" }

/-- A poller configuration. -/
def mwCfgEx : MwCfg :=
  { jobId := 7, pollingInterval := 1, errorSleep := 5, tmpRoot := "/tmp",
    cacheDirName := "ermes_qgis" }

/-- A `pending` poll iteration. -/
def mwIterPending : MwIter :=
  { poll := MwPoll.ok "pending" 200 "queued" none none, dl := Except.error "unused" }

/-- An `update` poll iteration. -/
def mwIterUpdate : MwIter :=
  { poll := MwPoll.ok "update" 200 "working" none none, dl := Except.error "unused" }

/-- A retrieve response for the download performed by the poller. -/
def mwDlRespEx : MwDlResp := { contentDisp := "", chunks := [10] }

/-- An `error` poll iteration with statusCode 404. -/
def mwIterErr404 : MwIter :=
  { poll := MwPoll.ok "error" 404 "boom" none none, dl := Except.error "unused" }

/-- An `error` poll iteration with statusCode 500. -/
def mwIterErr500 : MwIter :=
  { poll := MwPoll.ok "error" 500 "boom" none none, dl := Except.error "unused" }

/-- An `end` poll iteration with a resource URL and a successful retrieve. -/
def mwIterEndRes : MwIter :=
  { poll := MwPoll.ok "end" 200 "ok" (some "http://r") (some "dt1"),
    dl := Except.ok mwDlRespEx }

/-- An `end` poll iteration without a resource URL. -/
def mwIterEndNoRes : MwIter :=
  { poll := MwPoll.ok "end" 200 "ok" none (some "dt1"), dl := Except.error "unused" }

/-! ## Theorems -/

/-- Helper: a usable composite check implies the local check passed and the
remote validation issued its request. -/
theorem check_true_parts (s : TokenManager) (now : Int) (resp : Except Unit Nat)
    (h : check_and_handle_expiration s now resp = true) :
    is_token_expired s now = false ∧ validate_makes_request s = true := by
  unfold check_and_handle_expiration at h
  by_cases h1 : is_token_expired s now = true
  · rw [if_pos h1] at h; exact absurd h (by simp)
  · refine ⟨by simpa using h1, ?_⟩
    rw [if_neg h1] at h
    by_cases h2 : validate_token_with_api s resp = true
    · unfold validate_token_with_api at h2
      unfold validate_makes_request
      by_cases h3 : pyTruthyOpt s.access_token = true
      · exact h3
      · rw [if_pos (by simpa using h3)] at h2; exact absurd h2 (by simp)
    · rw [if_pos (by simpa using h2)] at h; exact absurd h (by simp)

/-- C3: for every stored (truthy) credential, `validate_token_with_api`
returns false exactly on an HTTP 401 response; every exception and every other
status code — 200 included — yields true (fail-open). -/
theorem validate_token_fail_open (s : TokenManager) (tok : String) (resp : Except Unit Nat)
    (hs : s.access_token = some tok) (htok : tok ≠ "") :
    validate_token_with_api s resp = false ↔ resp = Except.ok 401 := by
  have ht : pyTruthyOpt s.access_token = true := by rw [hs]; simp [pyTruthyOpt, htok]
  unfold validate_token_with_api
  rw [ht]
  cases resp with
  | error u => simp
  | ok code =>
    by_cases h : code = 401
    · subst h; simp
    · by_cases h2 : code = 200 <;> simp [h, h2]

/-- Witness for C3: with a fresh default credential, a 401 response is the
case that yields false. -/
theorem validate_token_fail_open_witness :
    validate_token_with_api (set_token tmDefault "tok" none 0) (Except.ok 401) = false :=
  (validate_token_fail_open (set_token tmDefault "tok" none 0) "tok" (Except.ok 401) rfl
    (by decide)).mpr rfl

/-- C5: after `set_token` at time `issuedAt` (with `buffer < lifetime`), the
local expiry check is true exactly when `now - issuedAt >= lifetime - buffer`;
in particular it is false at `issuedAt` itself and true from
`issuedAt + lifetime - buffer` on. -/
theorem token_local_expiry_threshold (s : TokenManager) (tok : String) (issuedAt now : Int)
    (htok : tok ≠ "") (hbl : s.expiration_buffer_minutes < s.token_lifetime_minutes) :
    (is_token_expired (set_token s tok none issuedAt) now = true ↔
      now - issuedAt ≥ s.token_lifetime_minutes - s.expiration_buffer_minutes)
    ∧ is_token_expired (set_token s tok none issuedAt) issuedAt = false
    ∧ (now ≥ issuedAt + (s.token_lifetime_minutes - s.expiration_buffer_minutes) →
        is_token_expired (set_token s tok none issuedAt) now = true) := by
  refine ⟨?_, ?_, ?_⟩ <;> simp [set_token, is_token_expired, htok]
  · omega
  · omega

/-- Witness for C5: with the default durations, a token set at time 0 is not
expired at time 0 and is expired at time 5995. -/
theorem token_local_expiry_threshold_witness :
    is_token_expired (set_token tmDefault "tok" none 0) 0 = false ∧
      is_token_expired (set_token tmDefault "tok" none 0) 5995 = true :=
  ⟨(token_local_expiry_threshold tmDefault "tok" 0 0 (by decide) (by decide)).2.1,
   (token_local_expiry_threshold tmDefault "tok" 0 5995 (by decide) (by decide)).2.2 (by decide)⟩

/-- Helper for C9: one mutation establishes the paired-fields invariant. -/
theorem applyTokOp_inv (s : TokenManager) (op : TokOp) :
    (applyTokOp s op).access_token.isSome = (applyTokOp s op).token_created_at.isSome := by
  cases op with
  | set tok lm now => cases lm <;> simp [applyTokOp, set_token]
  | clear => simp [applyTokOp, clear_token]

/-- C9: after any sequence of `set_token`/`clear_token` operations from the
freshly constructed state, the token is present exactly when its creation time
is present. -/
theorem token_fields_move_together (lifetime buffer : Int) (ops : List TokOp) :
    ((ops.foldl applyTokOp (initTM lifetime buffer)).access_token).isSome =
      ((ops.foldl applyTokOp (initTM lifetime buffer)).token_created_at).isSome := by
  have main : ∀ (l : List TokOp) (s : TokenManager),
      s.access_token.isSome = s.token_created_at.isSome →
      ((l.foldl applyTokOp s).access_token).isSome =
        ((l.foldl applyTokOp s).token_created_at).isSome := by
    intro l
    induction l with
    | nil => intro s h; exact h
    | cons op rest ih => intro s _; exact ih _ (applyTokOp_inv s op)
  exact main ops _ (by simp [initTM])

/-- C10: `set_token` with no lifetime replaces only the token and its creation
time, leaving the configured lifetime and buffer unchanged; with an explicit
lifetime it additionally replaces the lifetime used by every subsequent
`is_token_expired` and `get_time_until_expiry` computation. -/
theorem set_token_frame (s : TokenManager) (tok : String) (issuedAt now L : Int)
    (htok : tok ≠ "") :
    ((set_token s tok none issuedAt).token_lifetime_minutes = s.token_lifetime_minutes)
    ∧ ((set_token s tok none issuedAt).expiration_buffer_minutes = s.expiration_buffer_minutes)
    ∧ ((set_token s tok none issuedAt).access_token = some tok)
    ∧ ((set_token s tok none issuedAt).token_created_at = some issuedAt)
    ∧ ((set_token s tok (some L) issuedAt).token_lifetime_minutes = L)
    ∧ ((set_token s tok (some L) issuedAt).expiration_buffer_minutes =
        s.expiration_buffer_minutes)
    ∧ (is_token_expired (set_token s tok (some L) issuedAt) now =
        decide (now - issuedAt ≥ L - s.expiration_buffer_minutes))
    ∧ (is_token_expired (set_token s tok none issuedAt) now =
        decide (now - issuedAt ≥ s.token_lifetime_minutes - s.expiration_buffer_minutes))
    ∧ (get_time_until_expiry (set_token s tok (some L) issuedAt) now =
        max (L - (now - issuedAt)) 0)
    ∧ (get_time_until_expiry (set_token s tok none issuedAt) now =
        max (s.token_lifetime_minutes - (now - issuedAt)) 0) := by
  refine ⟨rfl, rfl, rfl, rfl, rfl, rfl, ?_, ?_, rfl, rfl⟩ <;>
    simp [set_token, is_token_expired, htok]

/-- Witness for C10: setting a token with no lifetime keeps the configured
default lifetime of 6000 minutes. -/
theorem set_token_frame_witness :
    (set_token tmDefault "t" none 3).token_lifetime_minutes = 6000 :=
  (set_token_frame tmDefault "t" 3 10 50 (by decide)).1

/-- C4: while polling, an `error` status with statusCode 404 emits exactly one
warning, sleeps `error_sleep_seconds` and keeps polling; an `error` status
with any other statusCode emits the server-provided message and terminates
the loop. -/
theorem poller_error_404_soft (cfg : MwCfg) (code : Int) (res : String)
    (ru dt : Option String) (d : Except String MwDlResp) (rest : List MwIter)
    (hc : code ≠ 404) :
    mwGo cfg ({ poll := MwPoll.ok "error" 404 res ru dt, dl := d } :: rest) =
        MwEv.statusUpdated ("Job " ++ toString cfg.jobId ++ " Warning: " ++ res) ::
          MwEv.sleepFor cfg.errorSleep :: mwGo cfg rest
    ∧ mwGo cfg ({ poll := MwPoll.ok "error" code res ru dt, dl := d } :: rest) =
        [MwEv.errorEv ("Job " ++ toString cfg.jobId ++ " Error: " ++ toString code ++ " - " ++
          res), MwEv.logSeparator] := by
  constructor
  · simp [mwGo, mwStep]
  · simp [mwGo, mwStep, hc]

/-- Witness for C4: a concrete 404 soft error and a concrete 500 fatal error. -/
theorem poller_error_404_soft_witness :
    mwGo mwCfgEx (mwIterErr404 :: []) =
      MwEv.statusUpdated ("Job " ++ toString mwCfgEx.jobId ++ " Warning: " ++ "boom") ::
        MwEv.sleepFor mwCfgEx.errorSleep :: mwGo mwCfgEx []
    ∧ mwGo mwCfgEx (mwIterErr500 :: []) =
      [MwEv.errorEv ("Job " ++ toString mwCfgEx.jobId ++ " Error: " ++ toString (500 : Int) ++
        " - " ++ "boom"), MwEv.logSeparator] :=
  poller_error_404_soft mwCfgEx 500 "boom" none none (Except.error "unused") [] (by decide)

/-- Helper: an iteration with a non-terminal progress status continues the
loop and contributes neither `layer_ready` nor `error` events. -/
theorem mwStep_progress (cfg : MwCfg) (it : MwIter) (h : mwProgressStatus it = true) :
    (mwStep cfg it).2 = true ∧ (mwStep cfg it).1.countP mwIsLayer = 0 ∧
      (mwStep cfg it).1.countP mwIsError = 0 := by
  rcases it with ⟨poll, d⟩
  cases poll with
  | netErr e => simp [mwProgressStatus] at h
  | ok s code res ru dt =>
    simp only [mwProgressStatus, Bool.or_eq_true, beq_iff_eq] at h
    rcases h with (h | h) | h <;> subst h <;>
      simp [mwStep, mwIsLayer, mwIsError]

/-- Helper: a run of progress iterations contributes a block of events with no
`layer_ready` and no `error` emissions, and the loop proceeds past it. -/
theorem mwGo_progress_decomp (cfg : MwCfg) :
    ∀ (pre : List MwIter), (∀ x ∈ pre, mwProgressStatus x = true) → ∀ l,
      ∃ evs, mwGo cfg (pre ++ l) = evs ++ mwGo cfg l ∧
        evs.countP mwIsLayer = 0 ∧ evs.countP mwIsError = 0 := by
  intro pre
  induction pre with
  | nil => intro _ l; exact ⟨[], rfl, rfl, rfl⟩
  | cons it xs ih =>
    intro h l
    have hit := mwStep_progress cfg it (h it (List.mem_cons_self it xs))
    obtain ⟨evs, heq, hl0, he0⟩ := ih (fun x hx => h x (List.mem_cons_of_mem it hx)) l
    refine ⟨(mwStep cfg it).1 ++ evs, ?_, ?_, ?_⟩
    · simp [mwGo, hit.1, heq]
    · simp [List.countP_append, hit.2.1, hl0]
    · simp [List.countP_append, hit.2.2, he0]

/-- Helper: once an iteration breaks the loop, later inputs are never
consumed. -/
theorem mwGo_stop (cfg : MwCfg) :
    ∀ (pre : List MwIter) (it : MwIter) (rest : List MwIter),
      (mwStep cfg it).2 = false →
      mwGo cfg (pre ++ it :: rest) = mwGo cfg (pre ++ [it]) := by
  intro pre
  induction pre with
  | nil => intro it rest h; simp [mwGo, h]
  | cons x xs ih => intro it rest h; simp [mwGo, List.cons_append, ih it rest h]

/-- Helper: the `end`-with-resource iteration downloads and emits exactly the
download status message and one `layer_ready` event, then breaks. -/
theorem mwStep_end_resource (cfg : MwCfg) (code : Int) (res : String)
    (ru dt : Option String) (r : MwDlResp) (hru : pyTruthyOpt ru = true) :
    mwStep cfg { poll := MwPoll.ok "end" code res ru dt, dl := Except.ok r } =
      ([MwEv.statusUpdated ("Job " ++ toString cfg.jobId ++
          " status: success - Request completed, downloading layer"),
        MwEv.layerReady (mwCachePath cfg r) dt], false) := by
  simp [mwStep, hru]

/-- Helper: the `end`-without-resource iteration emits exactly one `error`
event, then breaks. -/
theorem mwStep_end_noresource (cfg : MwCfg) (code : Int) (res : String)
    (ru dt : Option String) (d : Except String MwDlResp) (hru : pyTruthyOpt ru = false) :
    mwStep cfg { poll := MwPoll.ok "end" code res ru dt, dl := d } =
      ([MwEv.errorEv "Job completed but no resource URL provided"], false) := by
  simp [mwStep, hru]

/-- C6: after any run of non-terminal progress statuses, an `end` poll with a
resource URL and a successful download makes the whole run emit exactly one
`layer_ready` event (carrying the cache path and the datatype id of the job) and no
`error` events, and the loop terminates; an `end` poll without a resource URL
makes it emit exactly one `error` event and no `layer_ready` events, and the
loop terminates. -/
theorem poller_end_terminal_events (cfg : MwCfg) (pre : List MwIter)
    (hpre : ∀ x ∈ pre, mwProgressStatus x = true)
    (code : Int) (res : String) (ru ru2 dt : Option String)
    (r : MwDlResp) (d2 : Except String MwDlResp) (rest rest2 : List MwIter)
    (hru : pyTruthyOpt ru = true) (hru2 : pyTruthyOpt ru2 = false) :
    ((mwRun cfg (pre ++ { poll := MwPoll.ok "end" code res ru dt, dl := Except.ok r } ::
        rest)).countP mwIsLayer = 1
     ∧ (mwRun cfg (pre ++ { poll := MwPoll.ok "end" code res ru dt, dl := Except.ok r } ::
        rest)).countP mwIsError = 0
     ∧ MwEv.layerReady (mwCachePath cfg r) dt ∈
        mwRun cfg (pre ++ { poll := MwPoll.ok "end" code res ru dt, dl := Except.ok r } :: rest)
     ∧ mwGo cfg (pre ++ { poll := MwPoll.ok "end" code res ru dt, dl := Except.ok r } :: rest) =
        mwGo cfg (pre ++ [{ poll := MwPoll.ok "end" code res ru dt, dl := Except.ok r }]))
    ∧ ((mwRun cfg (pre ++ { poll := MwPoll.ok "end" code res ru2 dt, dl := d2 } ::
        rest2)).countP mwIsError = 1
     ∧ (mwRun cfg (pre ++ { poll := MwPoll.ok "end" code res ru2 dt, dl := d2 } ::
        rest2)).countP mwIsLayer = 0
     ∧ mwGo cfg (pre ++ { poll := MwPoll.ok "end" code res ru2 dt, dl := d2 } :: rest2) =
        mwGo cfg (pre ++ [{ poll := MwPoll.ok "end" code res ru2 dt, dl := d2 }])) := by
  have hstepA := mwStep_end_resource cfg code res ru dt r hru
  have hstepB := mwStep_end_noresource cfg code res ru2 dt d2 hru2
  obtain ⟨evsA, heqA, hlA, heA⟩ := mwGo_progress_decomp cfg pre hpre
    ({ poll := MwPoll.ok "end" code res ru dt, dl := Except.ok r } :: rest)
  obtain ⟨evsB, heqB, hlB, heB⟩ := mwGo_progress_decomp cfg pre hpre
    ({ poll := MwPoll.ok "end" code res ru2 dt, dl := d2 } :: rest2)
  have hgoA : mwGo cfg ({ poll := MwPoll.ok "end" code res ru dt, dl := Except.ok r } :: rest) =
      [MwEv.statusUpdated ("Job " ++ toString cfg.jobId ++
        " status: success - Request completed, downloading layer"),
       MwEv.layerReady (mwCachePath cfg r) dt] := by
    simp [mwGo, hstepA]
  have hgoB : mwGo cfg ({ poll := MwPoll.ok "end" code res ru2 dt, dl := d2 } :: rest2) =
      [MwEv.errorEv "Job completed but no resource URL provided"] := by
    simp [mwGo, hstepB]
  refine ⟨⟨?_, ?_, ?_, ?_⟩, ⟨?_, ?_, ?_⟩⟩
  · simp [mwRun, heqA, hgoA, List.countP_append, List.countP_cons, hlA, mwIsLayer]
  · simp [mwRun, heqA, hgoA, List.countP_append, List.countP_cons, heA, mwIsError]
  · simp [mwRun, heqA, hgoA]
  · exact mwGo_stop cfg pre _ rest (by rw [hstepA])
  · simp [mwRun, heqB, hgoB, List.countP_append, List.countP_cons, heB, mwIsError]
  · simp [mwRun, heqB, hgoB, List.countP_append, List.countP_cons, hlB, mwIsLayer]
  · exact mwGo_stop cfg pre _ rest2 (by rw [hstepB])

/-- Witness for C6: a simulated `pending, update, end(resource)` sequence and
a simulated `end(no resource)` run, with all hypotheses discharged. -/
theorem poller_end_terminal_events_witness :
    ((mwRun mwCfgEx ([mwIterPending, mwIterUpdate] ++ mwIterEndRes :: [])).countP mwIsLayer = 1
     ∧ (mwRun mwCfgEx ([mwIterPending, mwIterUpdate] ++
        mwIterEndRes :: [])).countP mwIsError = 0
     ∧ MwEv.layerReady (mwCachePath mwCfgEx mwDlRespEx) (some "dt1") ∈
        mwRun mwCfgEx ([mwIterPending, mwIterUpdate] ++ mwIterEndRes :: [])
     ∧ mwGo mwCfgEx ([mwIterPending, mwIterUpdate] ++ mwIterEndRes :: []) =
        mwGo mwCfgEx ([mwIterPending, mwIterUpdate] ++ [mwIterEndRes]))
    ∧ ((mwRun mwCfgEx ([mwIterPending, mwIterUpdate] ++
        mwIterEndNoRes :: [])).countP mwIsError = 1
     ∧ (mwRun mwCfgEx ([mwIterPending, mwIterUpdate] ++
        mwIterEndNoRes :: [])).countP mwIsLayer = 0
     ∧ mwGo mwCfgEx ([mwIterPending, mwIterUpdate] ++ mwIterEndNoRes :: []) =
        mwGo mwCfgEx ([mwIterPending, mwIterUpdate] ++ [mwIterEndNoRes])) :=
  poller_end_terminal_events mwCfgEx [mwIterPending, mwIterUpdate] (by decide)
    200 "ok" (some "http://r") none (some "dt1") mwDlRespEx (Except.error "unused") [] []
    (by decide) (by decide)

/-- C1: a fully successful download lifecycle emits the `download_completed`
signal twice — once from `run` and once from the framework-invoked
`finished(True)` — and no failure signal.  This exhibits the double-reporting
that contradicts the exactly-one-terminal-event contract. -/
theorem jobdownload_double_completion :
    (dlLifecycle dlCfgEx dlEnvSuccess).countP isDlCompleted = 2 ∧
      (dlLifecycle dlCfgEx dlEnvSuccess).countP isDlFailed = 0 := by decide

/-- Helper: clamping to the 20-95 band commutes in its two spellings. -/
theorem clamp_band (x : Nat) : max 20 (min 95 x) = min 95 (max 20 x) := by omega

/-- Helper: numeric progress values distribute over trace concatenation. -/
theorem progressEvents_append (a b : List DlAct) :
    progressEvents (a ++ b) = progressEvents a ++ progressEvents b := by
  induction a with
  | nil => rfl
  | cons x xs ih => cases x <;> simp [progressEvents, ih]

/-- Helper: without a cancellation request, the chunk loop never reports a
cancellation. -/
theorem dlLoop_nocancel (total : Nat) (p t : String) :
    ∀ (chunks : List Nat) (i d : Nat), (dlLoop none total p t i d chunks).2.2 = false := by
  intro chunks
  induction chunks with
  | nil => intro i d; rfl
  | cons c cs ih =>
    intro i d
    by_cases hc : c = 0 <;> simp [dlLoop, isCanceledAt, hc, ih]

/-- Helper: with a known positive total and no cancellation, the numeric
progress values of the loop are exactly the clamped per-chunk percentages of the
claim. -/
theorem dlLoop_progress (total : Nat) (p t : String) (ht : 0 < total) :
    ∀ (chunks : List Nat) (i d : Nat),
      progressEvents (dlLoop none total p t i d chunks).1 =
        claimedChunkProgress total d chunks := by
  intro chunks
  induction chunks with
  | nil => intro i d; rfl
  | cons c cs ih =>
    intro i d
    by_cases hc : c = 0
    · simp [dlLoop, isCanceledAt, hc, claimedChunkProgress, ih]
    · simp [dlLoop, isCanceledAt, hc, claimedChunkProgress, ih, ht, progressEvents, clamp_band]

/-- Helper: with no `Content-Length` (total 0) and no cancellation, the loop
reports no numeric progress at all. -/
theorem dlLoop_nototal (p t : String) :
    ∀ (chunks : List Nat) (i d : Nat),
      progressEvents (dlLoop none 0 p t i d chunks).1 = [] := by
  intro chunks
  induction chunks with
  | nil => intro i d; rfl
  | cons c cs ih =>
    intro i d
    by_cases hc : c = 0 <;> simp [dlLoop, isCanceledAt, hc, ih, progressEvents]

/-- Helper: when the cancellation request is observed by the check of chunk
`k`, the loop trace is some chunk bookkeeping followed by exactly the
cancellation emission, the partial-file removal and the directory removal. -/
theorem dlLoop_canceled (total : Nat) (p t : String) :
    ∀ (chunks : List Nat) (k i d : Nat), k < chunks.length →
      ∃ pre, (dlLoop (some (i + k)) total p t i d chunks).1 =
          pre ++ [DlAct.downloadFailed "Download cancelled", DlAct.removeFile p,
            DlAct.removeDir t]
        ∧ (dlLoop (some (i + k)) total p t i d chunks).2.2 = true
        ∧ ∀ a ∈ pre, isChunkAct a = true := by
  intro chunks
  induction chunks with
  | nil => intro k i d hk; simp at hk
  | cons c cs ih =>
    intro k i d hk
    cases k with
    | zero =>
      refine ⟨[], ?_, ?_, ?_⟩
      · simp [dlLoop, isCanceledAt]
      · simp [dlLoop, isCanceledAt]
      · simp
    | succ k2 =>
      have hfalse : isCanceledAt (some (i + (k2 + 1))) i = false := by
        simp [isCanceledAt]
      have hk2 : k2 < cs.length := by simpa using hk
      have hidx : i + 1 + k2 = i + (k2 + 1) := by omega
      by_cases hc : c = 0
      · obtain ⟨pre, h1, h2, h3⟩ := ih k2 (i + 1) d hk2
        rw [hidx] at h1 h2
        exact ⟨pre, by simp [dlLoop, hfalse, hc, h1], by simp [dlLoop, hfalse, hc, h2], h3⟩
      · obtain ⟨pre, h1, h2, h3⟩ := ih k2 (i + 1) (d + c) hk2
        rw [hidx] at h1 h2
        refine ⟨DlAct.writeChunk c ::
          ((if 0 < total then [DlAct.setProgress (max 20 (min 95 ((d + c) * 100 / total)))]
            else []) ++ pre), ?_, ?_, ?_⟩
        · simp [dlLoop, hfalse, hc, h1]
        · simp [dlLoop, hfalse, hc, h2]
        · intro a ha
          by_cases htl : 0 < total
          · simp [htl, List.mem_cons, List.mem_append] at ha
            rcases ha with rfl | rfl | ha
            · rfl
            · rfl
            · exact h3 a ha
          · simp [htl, List.mem_cons] at ha
            rcases ha with rfl | ha
            · rfl
            · exact h3 a ha

/-- Helper: a usable credential makes `_authenticate` issue exactly the
validation request. -/
theorem dlAuthTrace_of_usable (s : TokenManager) (now : Int) (resp : Except Unit Nat)
    (h : check_and_handle_expiration s now resp = true) :
    dlAuthTrace s now = [DlAct.netGet "validate"] := by
  obtain ⟨h1, h2⟩ := check_true_parts s now resp h
  simp [dlAuthTrace, h1, h2]

/-- C8: during a download with a known positive `Content-Length`, the numeric
progress values of the whole run are the fixed phase milestones 1, 5, 10, 15,
then exactly the clamped per-chunk percentages of the claim, then the final 100 —
in particular, when the chunks sum to the `Content-Length`, the last reported
value is 100; without a `Content-Length`, only the phase milestones are
reported and no per-chunk percentage at all. -/
theorem download_progress_band (cfg : DlCfg) (env : DlEnv) (dt : Option String) (r : DlResp)
    (hnc : env.cancelAt = none)
    (hauth : check_and_handle_expiration (dlTM cfg) env.now env.validateResp = true)
    (hjd : env.jobDetail = Except.ok dt)
    (hr : env.retrieve = Except.ok r) :
    (∀ L, r.contentLength = some L → 0 < L →
      progressEvents (dlRun cfg env).trace =
        1 :: 5 :: 10 :: 15 :: (claimedChunkProgress L 0 r.chunks ++ [100]))
    ∧ (∀ L, r.contentLength = some L → 0 < L → r.chunks.sum = L →
        (progressEvents (dlRun cfg env).trace).getLast? = some 100)
    ∧ (r.contentLength = none →
        progressEvents (dlRun cfg env).trace = [1, 5, 10, 15, 100]) := by
  have hauthTr := dlAuthTrace_of_usable (dlTM cfg) env.now env.validateResp hauth
  have hA : ∀ L, r.contentLength = some L → 0 < L →
      progressEvents (dlRun cfg env).trace =
        1 :: 5 :: 10 :: 15 :: (claimedChunkProgress L 0 r.chunks ++ [100]) := by
    intro L hL hpos
    have hflag := dlLoop_nocancel L
      (env.tempDir ++ "/" ++ parseFilename r.contentDisp cfg.jobId) env.tempDir r.chunks 2 0
    have hloop := dlLoop_progress L
      (env.tempDir ++ "/" ++ parseFilename r.contentDisp cfg.jobId) env.tempDir hpos r.chunks 2 0
    simp [dlRun, isCanceledAt, hauth, hjd, hr, hauthTr, hnc, hL, hflag, hloop,
      progressEvents_append, progressEvents]
  refine ⟨hA, ?_, ?_⟩
  · intro L hL hpos _
    rw [hA L hL hpos]
    rw [show (1 : Nat) :: 5 :: 10 :: 15 :: (claimedChunkProgress L 0 r.chunks ++ [100]) =
      (1 :: 5 :: 10 :: 15 :: claimedChunkProgress L 0 r.chunks) ++ [100] from by simp]
    exact List.getLast?_concat _
  · intro hL
    have hflag := dlLoop_nocancel 0
      (env.tempDir ++ "/" ++ parseFilename r.contentDisp cfg.jobId) env.tempDir r.chunks 2 0
    have hloop := dlLoop_nototal
      (env.tempDir ++ "/" ++ parseFilename r.contentDisp cfg.jobId) env.tempDir r.chunks 2 0
    simp [dlRun, isCanceledAt, hauth, hjd, hr, hauthTr, hnc, hL, hflag, hloop,
      progressEvents_append, progressEvents]

/-- Witness for C8: the environment with `Content-Length` 100 and chunks
60 and 40 reports 1, 5, 10, 15, then 60 and 95 (the clamped percentages),
then 100. -/
theorem download_progress_band_witness :
    progressEvents (dlRun dlCfgEx dlEnvSuccess).trace =
      1 :: 5 :: 10 :: 15 :: (claimedChunkProgress 100 0 dlRespEx.chunks ++ [100]) :=
  (download_progress_band dlCfgEx dlEnvSuccess (some "dt1") dlRespEx rfl (by decide)
    rfl rfl).1 100 rfl (by decide)

/-- C7 counterexample: in a download cancelled at the chunk boundary after one
written chunk, the `Download cancelled` failure is emitted before the partial
file is removed (not after the cleanup, as claimed), and the lifecycle emits
two failure events rather than exactly one. -/
theorem download_cancel_signal_order :
    ((dlLifecycle dlCfgEx dlEnvCancel).findIdx isCancelledFail <
      (dlLifecycle dlCfgEx dlEnvCancel).findIdx isRemoveFileAct)
    ∧ (dlLifecycle dlCfgEx dlEnvCancel).countP isDlFailed = 2 := by decide

/-- Helper: chunk-loop bookkeeping actions satisfy none of the terminal or
cleanup predicates. -/
theorem chunkAct_predicates (a : DlAct) (h : isChunkAct a = true) :
    isCancelledFail a = false ∧ isDlCompleted a = false ∧ isDlFailed a = false ∧
      isRemoveFileAct a = false := by
  cases a <;>
    simp_all [isChunkAct, isCancelledFail, isDlCompleted, isDlFailed, isRemoveFileAct]

/-- C7 (amended): when a cancellation request is observed at a chunk boundary
after at least one chunk (with token, job detail and retrieve all fine), the
engine removes the partially written file and its temporary directory, emits
the `Download cancelled` failure exactly once and never a completion — but
the cancellation signal is emitted at request time, before the cleanup, and
the `finished` callback adds one more generic failure event, for a total of
two failure emissions. -/
theorem download_cancel_cleanup (cfg : DlCfg) (env : DlEnv) (dt : Option String) (r : DlResp)
    (k : Nat)
    (hauth : check_and_handle_expiration (dlTM cfg) env.now env.validateResp = true)
    (hjd : env.jobDetail = Except.ok dt)
    (hr : env.retrieve = Except.ok r)
    (hc : env.cancelAt = some (2 + k))
    (hk1 : 1 ≤ k) (hk2 : k < r.chunks.length) :
    (dlLifecycle cfg env).countP isCancelledFail = 1
    ∧ DlAct.removeFile (env.tempDir ++ "/" ++ parseFilename r.contentDisp cfg.jobId) ∈
        dlLifecycle cfg env
    ∧ DlAct.removeDir env.tempDir ∈ dlLifecycle cfg env
    ∧ (dlLifecycle cfg env).countP isDlCompleted = 0
    ∧ (dlLifecycle cfg env).countP isDlFailed = 2 := by
  have hauthTr := dlAuthTrace_of_usable (dlTM cfg) env.now env.validateResp hauth
  have hcf0 : isCanceledAt (some (2 + k)) 0 = false := by simp [isCanceledAt]
  have hcf1 : isCanceledAt (some (2 + k)) 1 = false := by simp [isCanceledAt]; omega
  obtain ⟨pre, h1, h2, h3⟩ := dlLoop_canceled (r.contentLength.getD 0)
    (env.tempDir ++ "/" ++ parseFilename r.contentDisp cfg.jobId) env.tempDir
    r.chunks k 2 0 hk2
  have hp1 : pre.countP isCancelledFail = 0 :=
    List.countP_eq_zero.mpr fun a ha => by simp [(chunkAct_predicates a (h3 a ha)).1]
  have hp2 : pre.countP isDlCompleted = 0 :=
    List.countP_eq_zero.mpr fun a ha => by simp [(chunkAct_predicates a (h3 a ha)).2.1]
  have hp3 : pre.countP isDlFailed = 0 :=
    List.countP_eq_zero.mpr fun a ha => by simp [(chunkAct_predicates a (h3 a ha)).2.2.1]
  refine ⟨?_, ?_, ?_, ?_, ?_⟩ <;>
    simp [dlLifecycle, dlRun, dlFinished, pyOr, pyTruthyOpt, hc, hcf0, hcf1, hauth, hjd, hr,
      hauthTr, h1, h2, List.countP_append, List.countP_cons, hp1, hp2, hp3,
      isCancelledFail, isDlCompleted, isDlFailed]

/-- Witness for C7 (amended): the concrete cancelled-mid-stream environment,
with every hypothesis discharged. -/
theorem download_cancel_cleanup_witness :
    (dlLifecycle dlCfgEx dlEnvCancel).countP isCancelledFail = 1
    ∧ DlAct.removeFile (dlEnvCancel.tempDir ++ "/" ++
        parseFilename dlRespCancelEx.contentDisp dlCfgEx.jobId) ∈
        dlLifecycle dlCfgEx dlEnvCancel
    ∧ DlAct.removeDir dlEnvCancel.tempDir ∈ dlLifecycle dlCfgEx dlEnvCancel
    ∧ (dlLifecycle dlCfgEx dlEnvCancel).countP isDlCompleted = 0
    ∧ (dlLifecycle dlCfgEx dlEnvCancel).countP isDlFailed = 2 :=
  download_cancel_cleanup dlCfgEx dlEnvCancel (some "dt1") dlRespCancelEx 1 (by decide)
    rfl rfl rfl (by decide) (by decide)

/-- C2 counterexample: for an upload of a 1025 MiB file with a fresh valid
token, the lifecycle issues one outbound HTTP request (the token-validation
GET inside `_authenticate`), and it is issued before the too-large failure is
emitted — refuting "zero outbound HTTP requests" and "before any network
call". -/
theorem upload_too_large_validation_request :
    (upLifecycle upCfgEx upEnvLarge).countP isUpNet = 1
    ∧ ((upLifecycle upCfgEx upEnvLarge).findIdx isUpNet <
        (upLifecycle upCfgEx upEnvLarge).findIdx
          (isUpFailedMsg (tooLargeMsg upEnvLarge.fileSize))) := by decide

/-- Helper: a usable credential makes `_authenticate` of the upload task issue
exactly the validation request. -/
theorem upAuthTrace_of_usable (s : TokenManager) (now : Int) (resp : Except Unit Nat)
    (h : check_and_handle_expiration s now resp = true) :
    upAuthTrace s now = [UpAct.netGet] := by
  obtain ⟨h1, h2⟩ := check_true_parts s now resp h
  simp [upAuthTrace, h1, h2]

/-- C2 (amended): for every upload whose file size exceeds 1 GiB (with a
usable token and no cancellation), `run` emits the `file too large` failure
exactly once and returns failure before the upload POST is issued — the
lifecycle performs no POST and never completes — but the preceding
token-validation GET is its one outbound request, so the outbound request
count is one rather than zero. -/
theorem upload_too_large_no_post (cfg : UpCfg) (env : UpEnv)
    (hsize : env.fileSize > 1024 * 1024 * 1024)
    (hnc : env.cancelAt = none)
    (hauth : check_and_handle_expiration (upTM cfg) env.now env.validateResp = true) :
    (upLifecycle cfg env).filter isUpNet = [UpAct.netGet]
    ∧ (upRun cfg env).trace.countP (isUpFailedMsg (tooLargeMsg env.fileSize)) = 1
    ∧ (upLifecycle cfg env).countP isUpCompleted = 0
    ∧ (upRun cfg env).result = false := by
  have hauthTr := upAuthTrace_of_usable (upTM cfg) env.now env.validateResp hauth
  refine ⟨?_, ?_, ?_, ?_⟩ <;>
    simp [upLifecycle, upRun, upFinished, pyOr, pyTruthyOpt, isCanceledAt, hnc, hauth,
      hauthTr, hsize, List.countP_append, List.countP_cons, isUpNet, isUpCompleted,
      isUpFailedMsg]

/-- Witness for C2 (amended): the concrete 1025 MiB upload environment, with
every hypothesis discharged. -/
theorem upload_too_large_no_post_witness :
    (upLifecycle upCfgEx upEnvLarge).filter isUpNet = [UpAct.netGet]
    ∧ (upRun upCfgEx upEnvLarge).trace.countP
        (isUpFailedMsg (tooLargeMsg upEnvLarge.fileSize)) = 1
    ∧ (upLifecycle upCfgEx upEnvLarge).countP isUpCompleted = 0
    ∧ (upRun upCfgEx upEnvLarge).result = false :=
  upload_too_large_no_post upCfgEx upEnvLarge (by decide) rfl (by decide)

end Ermes
